import Mathlib

/-!
Shallow embedding of `src/server.py` (an MCP tool server wrapping the Alpaca
trading/market-data client).

Each tool of the server is modelled as a Lean function parametrised by the
external client call it performs: the client is an argument of type
`Request → Except Err α`, so that "the external call raised a fault" is the
client returning `Except.error e`, and "the external call succeeded with
response `r`" is `Except.ok r`.  Response payloads are opaque to the server,
hence the type variable `α`.

Operations that validate locally before calling out (`get_stock_bars`,
`place_limit_order`) additionally return a `Bool` flag recording whether the
external call was performed, so that "no external call occurs" is expressible.

Python string truthiness (`if status:`) is modelled by `String.isEmpty` on the
payload of an `Option String`; `str.lower()` is modelled by `pyLower`
(ASCII case folding on the underlying character list — the literals involved
are all ASCII).
-/

/-- Models Python `str.lower()` for the ASCII literals this server compares
against: lowercase every character of the string. -/
def pyLower (s : String) : String := ⟨s.data.map Char.toLower⟩

/-- Faults observable by the server: a fault raised by the external client
call, or a locally raised `ValueError` (only `get_stock_bars` raises one). -/
inductive Err
  | clientFault (msg : String)
  | valueError (msg : String)
deriving DecidableEq, Repr

/-- Models Python `str(e)`: the human-readable message of a fault. -/
def Err.describe : Err → String
  | .clientFault m => m
  | .valueError m => m

/-- A symbols argument: `Union[str, List[str]]` in the source. -/
inductive SymArg
  | str (s : String)
  | list (l : List String)
deriving DecidableEq, Repr

/-- Models the repeated pattern `if isinstance(symbols, str): symbols = [symbols]`
(server.py lines 42-43, 94-95, 199-202). -/
def normalizeSymbols : SymArg → List String
  | .str s => [s]
  | .list l => l

/-- Python truthiness of a symbols value: a string is truthy iff non-empty,
a list is truthy iff non-empty. -/
def SymArg.truthy : SymArg → Bool
  | .str s => !s.isEmpty
  | .list l => !l.isEmpty

/-- QueryOrderStatus enum of the Alpaca client. -/
inductive QueryOrderStatus
  | OPEN | CLOSED | ALL
deriving DecidableEq, Repr

/-- Sort enum of the Alpaca client (named `Sort` there; `Sort` is reserved in Lean). -/
inductive SortEnum
  | ASC | DESC
deriving DecidableEq, Repr

/-- OrderSide enum of the Alpaca client. -/
inductive OrderSide
  | BUY | SELL
deriving DecidableEq, Repr

/-- TimeFrameUnit enum of the Alpaca client. -/
inductive TimeFrameUnit
  | Minute | Hour | Day | Week | Month
deriving DecidableEq, Repr

/-- TimeInForce enum of the Alpaca client. -/
inductive TimeInForce
  | DAY | GTC | OPG | CLS | IOC | FOK
deriving DecidableEq, Repr

/-- The `status_map` dict of `get_orders` (server.py lines 170-174), as a
lookup with the dict's exact keys. -/
def status_map : String → Option QueryOrderStatus
  | "open" => some .OPEN
  | "closed" => some .CLOSED
  | "all" => some .ALL
  | _ => none

/-- The `direction_map` dict of `get_orders` (server.py lines 180-183). -/
def direction_map : String → Option SortEnum
  | "asc" => some .ASC
  | "desc" => some .DESC
  | _ => none

/-- The `side_map` dict of `get_orders` (server.py lines 189-192). -/
def side_map : String → Option OrderSide
  | "buy" => some .BUY
  | "sell" => some .SELL
  | _ => none

/-- The `unit_map` dict of `get_stock_bars` (server.py lines 98-104).  Its keys
are the exact strings "Min", "Hour", "Day", "Week", "Month"; the code performs
no case folding before this lookup. -/
def unit_map : String → Option TimeFrameUnit
  | "Min" => some .Minute
  | "Hour" => some .Hour
  | "Day" => some .Day
  | "Week" => some .Week
  | "Month" => some .Month
  | _ => none

/-- The `tif_map` dict of `place_limit_order` (server.py lines 621-628). -/
def tif_map : String → Option TimeInForce
  | "day" => some .DAY
  | "gtc" => some .GTC
  | "opg" => some .OPG
  | "cls" => some .CLS
  | "ioc" => some .IOC
  | "fok" => some .FOK
  | _ => none

/-- Computation of `status_param` in `get_orders` (server.py lines 168-176):
`None` unless `status` is truthy and its lowercase form is a key of
`status_map`. -/
def statusParam : Option String → Option QueryOrderStatus
  | none => none
  | some s => if s.isEmpty then none else status_map (pyLower s)

/-- Computation of `direction_param` in `get_orders` (server.py lines 178-185). -/
def directionParam : Option String → Option SortEnum
  | none => none
  | some s => if s.isEmpty then none else direction_map (pyLower s)

/-- Computation of `side_param` in `get_orders` (server.py lines 187-194). -/
def sideParam : Option String → Option OrderSide
  | none => none
  | some s => if s.isEmpty then none else side_map (pyLower s)

/-- Computation of `symbols_param` in `get_orders` (server.py lines 196-202):
`None` unless `symbols` is truthy, in which case a single symbol is wrapped in
a one-element list and a list passes through unchanged. -/
def symbolsParam : Option SymArg → Option (List String)
  | none => none
  | some a => if a.truthy then some (normalizeSymbols a) else none

/-- The `StockLatestQuoteRequest` constructed by `get_latest_quotes`
(server.py line 46), after symbol normalization. -/
structure StockLatestQuoteRequest where
  symbol_or_symbols : List String
deriving DecidableEq, Repr

/-- The `TimeFrame(timeframe_value, unit=...)` value of `get_stock_bars`
(server.py line 113). -/
structure TimeFrame where
  amount : Int
  unit : TimeFrameUnit
deriving DecidableEq, Repr

/-- The `StockBarsRequest` constructed by `get_stock_bars` (server.py lines
111-118).  Dates are passed through as opaque strings; `sort` is passed as the
raw string, untranslated. -/
structure StockBarsRequest where
  symbol_or_symbols : List String
  timeframe : TimeFrame
  start : String
  end_ : String
  limit : Option Int
  sort : String
deriving DecidableEq, Repr

/-- The `GetOrdersRequest` constructed by `get_orders` (server.py lines
205-214). -/
structure GetOrdersRequest where
  status : Option QueryOrderStatus
  limit : Option Int
  after : Option String
  until_ : Option String
  direction : Option SortEnum
  nested : Option Bool
  side : Option OrderSide
  symbols : Option (List String)
deriving DecidableEq, Repr

/-- The `ClosePositionRequest` constructed by `close_position` (server.py
line 460); both fields are optional strings in the source. -/
structure ClosePositionRequest where
  qty : Option String
  percentage : Option String
deriving DecidableEq, Repr

/-- The `GetCalendarRequest` constructed by `get_calendar` (server.py
line 548); dates as opaque strings. -/
structure GetCalendarRequest where
  start : Option String
  end_ : Option String
deriving DecidableEq, Repr

/-- The `LimitOrderRequest` constructed by `place_limit_order` (server.py
lines 641-647). -/
structure LimitOrderRequest (π : Type) where
  symbol : String
  limit_price : π
  qty : π
  side : OrderSide
  time_in_force : TimeInForce
deriving DecidableEq, Repr

/-- A tool's returned value: either the external client's native response
(returned unmodified) or a `\x7bsuccess, message\x7d` record. -/
inductive ToolResult (α : Type)
  | raw (r : α)
  | record (success : Bool) (message : String)
deriving DecidableEq, Repr

/-- The apostrophe character, as it appears inside some of the server's error
messages. -/
def apos : String := "\x27"

/-- Tool `get_latest_quotes` (server.py lines 21-55): normalizes the symbols
argument, performs the client call, and returns its result with no
try/except around it. -/
def get_latest_quotes {α : Type} (client : StockLatestQuoteRequest → Except Err α)
    (symbols : SymArg) : Except Err α :=
  client { symbol_or_symbols := normalizeSymbols symbols }

/-- Tool `get_stock_bars` (server.py lines 58-127): normalizes symbols,
validates `timeframe_unit` against `unit_map` raising a `ValueError` on an
unknown unit, otherwise performs the client call with no try/except around it.
The second component records whether the external call happened. -/
def get_stock_bars {α : Type} (client : StockBarsRequest → Except Err α)
    (symbols : SymArg) (start_date end_date : String) (timeframe_value : Int)
    (timeframe_unit : String) (limit : Option Int) (sort : String) :
    Except Err α × Bool :=
  let syms := normalizeSymbols symbols
  match unit_map timeframe_unit with
  | none =>
      (Except.error (Err.valueError
        "Invalid timeframe_unit. Must be one of: Min, Hour, Day, Week, Month"), false)
  | some u =>
      (client { symbol_or_symbols := syms, timeframe := { amount := timeframe_value, unit := u },
                start := start_date, end_ := end_date, limit := limit, sort := sort }, true)

/-- Tool `get_orders` (server.py lines 130-223): translates the optional
string filters through the three maps, normalizes symbols, builds a
`GetOrdersRequest` and returns the client call's result with no try/except
around it. -/
def get_orders {α : Type} (client : GetOrdersRequest → Except Err α)
    (status : Option String) (limit : Option Int) (after until_ : Option String)
    (direction : Option String) (nested : Option Bool) (side : Option String)
    (symbols : Option SymArg) : Except Err α :=
  client { status := statusParam status, limit := limit, after := after,
           until_ := until_, direction := directionParam direction,
           nested := nested, side := sideParam side,
           symbols := symbolsParam symbols }

/-- Tool `cancel_orders` (server.py lines 226-251): performs the client call
and returns its result.  The body has no try/except. -/
def cancel_orders {α : Type} (client : Unit → Except Err α) : Except Err α :=
  client ()

/-- Tool `cancel_order_by_id` (server.py lines 254-279): performs the client
call inside try/except; on success synthesizes a success record interpolating
the order id, on a fault returns a failure record with `str(e)`. -/
def cancel_order_by_id {α : Type} (client : String → Except Err α)
    (order_id : String) : ToolResult α :=
  match client order_id with
  | .ok _ => .record true ("Request to cancel order " ++ order_id ++
      " was sent to Alpaca. Verify order status to ensure it was cancelled.")
  | .error e => .record false e.describe

/-- Tool `get_asset` (server.py lines 282-313): client call inside try/except;
raw response on success, failure record on a fault. -/
def get_asset {α : Type} (client : String → Except Err α)
    (symbol_or_asset_id : String) : ToolResult α :=
  match client symbol_or_asset_id with
  | .ok r => .raw r
  | .error e => .record false e.describe

/-- Tool `get_account` (server.py lines 316-353): client call inside
try/except; raw response on success, failure record on a fault. -/
def get_account {α : Type} (client : Unit → Except Err α) : ToolResult α :=
  match client () with
  | .ok r => .raw r
  | .error e => .record false e.describe

/-- Tool `get_all_positions` (server.py lines 356-385): client call inside
try/except; the returned list on success, a one-element list holding a failure
record on a fault. -/
def get_all_positions {α : Type} (client : Unit → Except Err (List α)) :
    List (ToolResult α) :=
  match client () with
  | .ok rs => rs.map .raw
  | .error e => [.record false e.describe]

/-- Tool `get_open_position` (server.py lines 388-420): client call inside
try/except; raw response on success, failure record on a fault. -/
def get_open_position {α : Type} (client : String → Except Err α)
    (symbol_or_asset_id : String) : ToolResult α :=
  match client symbol_or_asset_id with
  | .ok r => .raw r
  | .error e => .record false e.describe

/-- Tool `close_position` (server.py lines 423-469): builds a
`ClosePositionRequest` when `qty` or `percentage` is supplied (no local
validation of the pair), performs the client call inside try/except; raw
response on success, failure record on a fault. -/
def close_position {α : Type} (client : String → Option ClosePositionRequest → Except Err α)
    (symbol_or_asset_id : String) (qty percentage : Option String) : ToolResult α :=
  let close_options : Option ClosePositionRequest :=
    if qty.isSome || percentage.isSome then
      some { qty := qty, percentage := percentage }
    else none
  match client symbol_or_asset_id close_options with
  | .ok r => .raw r
  | .error e => .record false e.describe

/-- Tool `get_clock` (server.py lines 472-507): client call inside try/except;
raw response on success, failure record on a fault. -/
def get_clock {α : Type} (client : Unit → Except Err α) : ToolResult α :=
  match client () with
  | .ok r => .raw r
  | .error e => .record false e.describe

/-- Tool `get_calendar` (server.py lines 510-557): builds a
`GetCalendarRequest` when `start` or `end` is supplied, performs the client
call inside try/except; the returned list on success, a one-element list
holding a failure record on a fault. -/
def get_calendar {α : Type} (client : Option GetCalendarRequest → Except Err (List α))
    (start end_ : Option String) : List (ToolResult α) :=
  let filters : Option GetCalendarRequest :=
    if start.isSome || end_.isSome then some { start := start, end_ := end_ }
    else none
  match client filters with
  | .ok rs => rs.map .raw
  | .error e => [.record false e.describe]

/-- The side translation of `place_limit_order` (server.py lines 610-614):
an if/elif chain on `side.lower()`. -/
def ploSideParam (side : String) : Option OrderSide :=
  if pyLower side = "buy" then some .BUY
  else if pyLower side = "sell" then some .SELL
  else none

/-- Tool `place_limit_order` (server.py lines 560-656): validates `side` and
`time_in_force` locally, returning a failure record on an invalid value
before any external call; otherwise submits the order inside try/except,
returning the raw response on success and a failure record on a fault.  The
second component records whether the external call happened. -/
def place_limit_order {π α : Type} (client : LimitOrderRequest π → Except Err α)
    (symbol : String) (limit_price : π) (qty : π) (side : String)
    (time_in_force : String) : ToolResult α × Bool :=
  match ploSideParam side with
  | none =>
      (.record false ("Invalid side parameter: " ++ side ++ ". Must be " ++
        apos ++ "buy" ++ apos ++ " or " ++ apos ++ "sell" ++ apos ++ "."), false)
  | some sp =>
      match tif_map (pyLower time_in_force) with
      | none =>
          (.record false ("Invalid time_in_force parameter: " ++ time_in_force ++
            ". Must be one of: day, gtc, opg, cls, ioc, fok"), false)
      | some tp =>
          match client { symbol := symbol, limit_price := limit_price, qty := qty,
                         side := sp, time_in_force := tp } with
          | .ok r => (.raw r, true)
          | .error e => (.record false e.describe, true)

/-- The exact dict key of `unit_map` denoting a given `TimeFrameUnit`. -/
def unitName : TimeFrameUnit → String
  | .Minute => "Min"
  | .Hour => "Hour"
  | .Day => "Day"
  | .Week => "Week"
  | .Month => "Month"

/-- The lowercase literal of `tif_map` denoting a given `TimeInForce`. -/
def tifName : TimeInForce → String
  | .DAY => "day"
  | .GTC => "gtc"
  | .OPG => "opg"
  | .CLS => "cls"
  | .IOC => "ioc"
  | .FOK => "fok"

/-- The lowercase literal denoting a given `OrderSide`. -/
def sideName : OrderSide → String
  | .BUY => "buy"
  | .SELL => "sell"

/-- Claim C1 (as stated, refuted): in `get_orders`, a symbols argument that is
the single (empty) string "" is not passed as the one-element list [""]:
the truthiness gate at server.py line 198 passes the parameter unset (None)
instead.  With the identity client the request actually sent carries
`symbols = none`, not `some [""]`. -/
theorem get_orders_empty_symbols_passed_unset :
    get_orders (fun r => (Except.ok r : Except Err GetOrdersRequest))
        none none none none none none none (some (SymArg.str "")) =
      Except.ok { status := none, limit := none, after := none, until_ := none,
                  direction := none, nested := none, side := none, symbols := none } ∧
    (GetOrdersRequest.symbols
      { status := none, limit := none, after := none, until_ := none,
        direction := none, nested := none, side := none, symbols := none }) ≠ some [""] :=
  ⟨rfl, by decide⟩

/-- Claim C1 (amended): for `get_latest_quotes` and `get_stock_bars`, every
single string is passed as its one-element list and every list is passed
unchanged, order preserved, unconditionally; for `get_orders` the same holds
for truthy symbols arguments (non-empty string, non-empty list, the
non-emptiness hypotheses scoped to those two conjuncts alone), while an empty
string or empty list is passed unset (None). -/
theorem symbols_normalization_per_operation {α : Type}
    (qc : StockLatestQuoteRequest → Except Err α)
    (bc : StockBarsRequest → Except Err α)
    (oc : GetOrdersRequest → Except Err α)
    (s : String) (l : List String) (sd ed srt : String) (tv : Int)
    (tu : TimeFrameUnit) (lim : Option Int)
    (st dir sid : Option String) (af un : Option String) (ns : Option Bool) :
    get_latest_quotes qc (.str s) = qc { symbol_or_symbols := [s] } ∧
    get_latest_quotes qc (.list l) = qc { symbol_or_symbols := l } ∧
    get_stock_bars bc (.str s) sd ed tv (unitName tu) lim srt =
      (bc { symbol_or_symbols := [s], timeframe := { amount := tv, unit := tu },
            start := sd, end_ := ed, limit := lim, sort := srt }, true) ∧
    get_stock_bars bc (.list l) sd ed tv (unitName tu) lim srt =
      (bc { symbol_or_symbols := l, timeframe := { amount := tv, unit := tu },
            start := sd, end_ := ed, limit := lim, sort := srt }, true) ∧
    (s.isEmpty = false →
      get_orders oc st lim af un dir ns sid (some (.str s)) =
        oc { status := statusParam st, limit := lim, after := af, until_ := un,
             direction := directionParam dir, nested := ns, side := sideParam sid,
             symbols := some [s] }) ∧
    (l.isEmpty = false →
      get_orders oc st lim af un dir ns sid (some (.list l)) =
        oc { status := statusParam st, limit := lim, after := af, until_ := un,
             direction := directionParam dir, nested := ns, side := sideParam sid,
             symbols := some l }) ∧
    get_orders oc st lim af un dir ns sid (some (.str "")) =
      oc { status := statusParam st, limit := lim, after := af, until_ := un,
           direction := directionParam dir, nested := ns, side := sideParam sid,
           symbols := none } ∧
    get_orders oc st lim af un dir ns sid (some (.list [])) =
      oc { status := statusParam st, limit := lim, after := af, until_ := un,
           direction := directionParam dir, nested := ns, side := sideParam sid,
           symbols := none } := by
  refine ⟨rfl, rfl, ?_, ?_, ?_, ?_, rfl, rfl⟩
  · cases tu <;> rfl
  · cases tu <;> rfl
  · intro hs
    have h1 : symbolsParam (some (.str s)) = some [s] := by
      simp [symbolsParam, SymArg.truthy, normalizeSymbols, hs]
    simp only [get_orders, h1]
  · intro hl
    have h2 : symbolsParam (some (.list l)) = some l := by
      simp [symbolsParam, SymArg.truthy, normalizeSymbols, hl]
    simp only [get_orders, h2]

/-- Witness for the amended C1 theorem at the concrete inputs "AAPL" and
["MSFT", "GOOGL"], with constant successful clients. -/
theorem symbols_normalization_per_operation_witness :
    get_latest_quotes (fun _ => (Except.ok 0 : Except Err Nat)) (.str "AAPL") = Except.ok 0 ∧
    get_latest_quotes (fun _ => (Except.ok 0 : Except Err Nat)) (.list ["MSFT", "GOOGL"]) = Except.ok 0 ∧
    get_stock_bars (fun _ => (Except.ok 0 : Except Err Nat)) (.str "AAPL")
        "2025-01-01" "2025-01-31" 1 (unitName .Day) none "asc" = (Except.ok 0, true) ∧
    get_stock_bars (fun _ => (Except.ok 0 : Except Err Nat)) (.list ["MSFT", "GOOGL"])
        "2025-01-01" "2025-01-31" 1 (unitName .Day) none "asc" = (Except.ok 0, true) ∧
    get_orders (fun _ => (Except.ok 0 : Except Err Nat)) none none none none none none none
        (some (.str "AAPL")) = Except.ok 0 ∧
    get_orders (fun _ => (Except.ok 0 : Except Err Nat)) none none none none none none none
        (some (.list ["MSFT", "GOOGL"])) = Except.ok 0 ∧
    get_orders (fun _ => (Except.ok 0 : Except Err Nat)) none none none none none none none
        (some (.str "")) = Except.ok 0 ∧
    get_orders (fun _ => (Except.ok 0 : Except Err Nat)) none none none none none none none
        (some (.list [])) = Except.ok 0 :=
  have h := symbols_normalization_per_operation (fun _ => Except.ok 0) (fun _ => Except.ok 0)
    (fun _ => (Except.ok 0 : Except Err Nat)) "AAPL" ["MSFT", "GOOGL"] "2025-01-01"
    "2025-01-31" "asc" 1 .Day none none none none none none none
  ⟨h.1, h.2.1, h.2.2.1, h.2.2.2.1, h.2.2.2.2.1 (by decide), h.2.2.2.2.2.1 (by decide),
    h.2.2.2.2.2.2.1, h.2.2.2.2.2.2.2⟩

/-- Claim C2 (confirmed): whatever fault `e` the external client call raises,
`get_latest_quotes`, `get_stock_bars` (with a valid time unit, so that the
call is reached) and `get_orders` surface exactly that fault as a raised
error; none of the three has a handler that could turn it into a
success-false record. -/
theorem client_fault_propagation_read_ops {α : Type} (e : Err) (syms : SymArg)
    (sd ed srt : String) (tv : Int) (tu : TimeFrameUnit) (lim lim2 : Option Int)
    (st dir sid af un : Option String) (ns : Option Bool) (symso : Option SymArg) :
    get_latest_quotes (fun _ => (Except.error e : Except Err α)) syms = Except.error e ∧
    get_stock_bars (fun _ => (Except.error e : Except Err α)) syms sd ed tv (unitName tu)
      lim srt = (Except.error e, true) ∧
    get_orders (fun _ => (Except.error e : Except Err α)) st lim2 af un dir ns sid symso =
      Except.error e :=
  ⟨rfl, by cases tu <;> rfl, rfl⟩

/-- Claim C3 (as stated, refuted): `cancel_orders` (server.py lines 226-251)
has no try/except — a fault from the external cancel-all call propagates as a
raised error instead of being caught and wrapped into a
success-false record. -/
theorem cancel_orders_fault_propagates :
    cancel_orders (fun _ => (Except.error (Err.clientFault "connection reset")
        : Except Err (List Nat))) =
      Except.error (Err.clientFault "connection reset") :=
  rfl

/-- Claim C3 (amended): every operation other than `get_latest_quotes`,
`get_stock_bars`, `get_orders` and `cancel_orders` catches any fault of its
external call and returns the record with success false and the fault's
description — as a single-element list for the list-returning
`get_all_positions` and `get_calendar` — while `cancel_orders` lets the
fault propagate like the three read operations do. -/
theorem fault_wrapping_other_ops {π α : Type} (e : Err) (oid sym symb : String)
    (qty pct cst cen : Option String) (pr qt : π) (sd : OrderSide) (tf : TimeInForce) :
    cancel_order_by_id (fun _ => (Except.error e : Except Err α)) oid =
      ToolResult.record false e.describe ∧
    get_asset (fun _ => (Except.error e : Except Err α)) sym =
      ToolResult.record false e.describe ∧
    get_account (fun _ => (Except.error e : Except Err α)) =
      ToolResult.record false e.describe ∧
    get_all_positions (fun _ => (Except.error e : Except Err (List α))) =
      [ToolResult.record false e.describe] ∧
    get_open_position (fun _ => (Except.error e : Except Err α)) sym =
      ToolResult.record false e.describe ∧
    close_position (fun _ _ => (Except.error e : Except Err α)) sym qty pct =
      ToolResult.record false e.describe ∧
    get_clock (fun _ => (Except.error e : Except Err α)) =
      ToolResult.record false e.describe ∧
    get_calendar (fun _ => (Except.error e : Except Err (List α))) cst cen =
      [ToolResult.record false e.describe] ∧
    place_limit_order (fun _ => (Except.error e : Except Err α)) symb pr qt
        (sideName sd) (tifName tf) = (ToolResult.record false e.describe, true) ∧
    cancel_orders (fun _ => (Except.error e : Except Err α)) = Except.error e := by
  refine ⟨rfl, rfl, rfl, rfl, rfl, rfl, rfl, rfl, ?_, rfl⟩
  cases sd <;> cases tf <;> rfl

/-- Claim C4 (as stated, refuted): the bar time-unit translation is NOT
case-insensitive.  The `unit_map` lookup in `get_stock_bars` uses the exact
keys "Min", "Hour", "Day", "Week", "Month" with no case folding: "Min" maps to
the minute unit but "min" is rejected — `get_stock_bars` raises the
invalid-unit ValueError for it and performs no external call. -/
theorem bar_unit_case_sensitive :
    unit_map "Min" = some TimeFrameUnit.Minute ∧
    unit_map "min" = none ∧
    get_stock_bars (fun r => (Except.ok r : Except Err StockBarsRequest))
        (.str "AAPL") "2025-01-01" "2025-01-31" 1 "min" none "asc" =
      (Except.error (Err.valueError
        "Invalid timeframe_unit. Must be one of: Min, Hour, Day, Week, Month"), false) :=
  ⟨rfl, rfl, rfl⟩

/-- Claim C4 (amended): the string-to-enum translations that fold case —
order status, sort direction and order side in `get_orders`, order side and
time-in-force in `place_limit_order` — map any two casings of a string to the
same enumerated value, because the lookup happens on the lowercased input;
the bar time-unit lookup of `get_stock_bars`, by contrast, is an exact
case-sensitive match on "Min", "Hour", "Day", "Week", "Month". -/
theorem enum_translation_case_fold (s t : String) (h : pyLower s = pyLower t)
    (hs : s.isEmpty = false) (ht : t.isEmpty = false) :
    statusParam (some s) = statusParam (some t) ∧
    directionParam (some s) = directionParam (some t) ∧
    sideParam (some s) = sideParam (some t) ∧
    ploSideParam s = ploSideParam t ∧
    tif_map (pyLower s) = tif_map (pyLower t) ∧
    unit_map "Day" = some TimeFrameUnit.Day ∧
    unit_map "day" = none ∧
    unit_map "DAY" = none := by
  refine ⟨?_, ?_, ?_, ?_, ?_, rfl, rfl, rfl⟩
  · simp only [statusParam, hs, ht, h, Bool.false_eq_true, if_false]
  · simp only [directionParam, hs, ht, h, Bool.false_eq_true, if_false]
  · simp only [sideParam, hs, ht, h, Bool.false_eq_true, if_false]
  · simp only [ploSideParam, h]
  · rw [h]

/-- Witness for the amended C4 theorem at the casings "BUY" and "Buy". -/
theorem enum_translation_case_fold_witness :
    statusParam (some "BUY") = statusParam (some "Buy") ∧
    directionParam (some "BUY") = directionParam (some "Buy") ∧
    sideParam (some "BUY") = sideParam (some "Buy") ∧
    ploSideParam "BUY" = ploSideParam "Buy" ∧
    tif_map (pyLower "BUY") = tif_map (pyLower "Buy") ∧
    unit_map "Day" = some TimeFrameUnit.Day ∧
    unit_map "day" = none ∧
    unit_map "DAY" = none :=
  enum_translation_case_fold "BUY" "Buy" (by decide) (by decide) (by decide)

/-- Claim C5 (confirmed): `get_orders` given non-empty status, direction and
side strings whose lowercase forms are not recognized literals does not fail:
it leaves all three request parameters unset (None) and proceeds with the
external call on that request. -/
theorem get_orders_unrecognized_filters_unset {α : Type}
    (client : GetOrdersRequest → Except Err α) (s d sd : String)
    (lim : Option Int) (af un : Option String) (ns : Option Bool)
    (syms : Option SymArg)
    (hs : s.isEmpty = false) (hs2 : status_map (pyLower s) = none)
    (hd : d.isEmpty = false) (hd2 : direction_map (pyLower d) = none)
    (hsd : sd.isEmpty = false) (hsd2 : side_map (pyLower sd) = none) :
    get_orders client (some s) lim af un (some d) ns (some sd) syms =
      client { status := none, limit := lim, after := af, until_ := un,
               direction := none, nested := ns, side := none,
               symbols := symbolsParam syms } := by
  simp only [get_orders, statusParam, directionParam, sideParam, hs, hd, hsd,
    Bool.false_eq_true, if_false, hs2, hd2, hsd2]

/-- Witness for C5 at status "pending", direction "up", side "hold" with the
identity client: the call proceeds with all three parameters unset. -/
theorem get_orders_unrecognized_filters_unset_witness :
    get_orders (fun r => (Except.ok r : Except Err GetOrdersRequest))
        (some "pending") none none none (some "up") none (some "hold") none =
      Except.ok { status := none, limit := none, after := none, until_ := none,
                  direction := none, nested := none, side := none, symbols := none } :=
  get_orders_unrecognized_filters_unset (fun r => Except.ok r) "pending" "up" "hold"
    none none none none none (by decide) (by decide) (by decide) (by decide)
    (by decide) (by decide)

/-- Claim C6 (confirmed): `place_limit_order` with side "sideways" returns
exactly the record with success false and message
"Invalid side parameter: sideways. Must be \x27buy\x27 or \x27sell\x27.",
for every client, every other argument, and with the external-call flag
false — no order submission occurs. -/
theorem place_limit_order_invalid_side_sideways {π α : Type}
    (client : LimitOrderRequest π → Except Err α) (symbol : String)
    (limit_price qty : π) (time_in_force : String) :
    place_limit_order client symbol limit_price qty "sideways" time_in_force =
      (ToolResult.record false
        "Invalid side parameter: sideways. Must be \x27buy\x27 or \x27sell\x27.", false) :=
  rfl

/-- Claim C7 (confirmed): `get_stock_bars` with the unrecognized unit
"Fortnight" fails with a raised ValueError (not a returned record) whose
message lists the valid unit names, for every client and every other
argument, and with the external-call flag false — no external call occurs. -/
theorem get_stock_bars_invalid_unit_raised {α : Type}
    (client : StockBarsRequest → Except Err α) (symbols : SymArg)
    (sd ed : String) (tv : Int) (lim : Option Int) (srt : String) :
    get_stock_bars client symbols sd ed tv "Fortnight" lim srt =
      (Except.error (Err.valueError
        "Invalid timeframe_unit. Must be one of: Min, Hour, Day, Week, Month"), false) :=
  rfl

/-- Claim C8 (confirmed): when the external cancel call of
`cancel_order_by_id` succeeds, the result is exactly the success record with
the order id interpolated into the fixed message. -/
theorem cancel_order_by_id_success_message {α : Type}
    (client : String → Except Err α) (order_id : String) (r : α)
    (h : client order_id = Except.ok r) :
    cancel_order_by_id client order_id =
      ToolResult.record true ("Request to cancel order " ++ order_id ++
        " was sent to Alpaca. Verify order status to ensure it was cancelled.") := by
  simp only [cancel_order_by_id, h]

/-- Witness for C8 at a concrete order id with a succeeding client. -/
theorem cancel_order_by_id_success_message_witness :
    cancel_order_by_id (fun _ => (Except.ok 0 : Except Err Nat))
        "f1d6dc0e-8d24-4f94-a36d-c1d6b2b8ad77" =
      ToolResult.record true
        "Request to cancel order f1d6dc0e-8d24-4f94-a36d-c1d6b2b8ad77 was sent to Alpaca. Verify order status to ensure it was cancelled." :=
  cancel_order_by_id_success_message (fun _ => Except.ok 0)
    "f1d6dc0e-8d24-4f94-a36d-c1d6b2b8ad77" 0 rfl

/-- Claim C9 (confirmed): `close_position` called with both qty and percentage
performs no local validation of the pair: it builds the close-options request
carrying both values and its result is exactly the wrapped outcome of the
external call on that request, whatever the client does. -/
theorem close_position_qty_and_percentage_forwarded {α : Type}
    (client : String → Option ClosePositionRequest → Except Err α)
    (symbol_or_asset_id qty percentage : String) :
    close_position client symbol_or_asset_id (some qty) (some percentage) =
      (match client symbol_or_asset_id
          (some { qty := some qty, percentage := some percentage }) with
       | .ok r => ToolResult.raw r
       | .error e => ToolResult.record false e.describe) :=
  rfl

/-- Claim C10 (confirmed): in `get_orders`, an empty string supplied for
status, direction or side, and an empty string or empty list supplied for
symbols, behave exactly like the absent argument: the resulting request (and
hence the whole call) is identical, and the corresponding parameter is
unset (None). -/
theorem get_orders_truthiness_empty_like_absent {α : Type}
    (client : GetOrdersRequest → Except Err α)
    (st dir sid : Option String) (lim : Option Int) (af un : Option String)
    (ns : Option Bool) (syms : Option SymArg) :
    (get_orders client (some "") lim af un dir ns sid syms =
      get_orders client none lim af un dir ns sid syms) ∧
    (get_orders client st lim af un (some "") ns sid syms =
      get_orders client st lim af un none ns sid syms) ∧
    (get_orders client st lim af un dir ns (some "") syms =
      get_orders client st lim af un dir ns none syms) ∧
    (get_orders client st lim af un dir ns sid (some (.str "")) =
      get_orders client st lim af un dir ns sid none) ∧
    (get_orders client st lim af un dir ns sid (some (.list [])) =
      get_orders client st lim af un dir ns sid none) ∧
    statusParam (some "") = none ∧
    directionParam (some "") = none ∧
    sideParam (some "") = none ∧
    symbolsParam (some (.str "")) = none ∧
    symbolsParam (some (.list [])) = none :=
  ⟨rfl, rfl, rfl, rfl, rfl, rfl, rfl, rfl, rfl, rfl⟩
